import Mathlib

/-!
Shallow embedding of the core pipeline of `src/backend/app.py`
(SQL Conversational Interface).

The `SQLAgent` class methods become Lean functions.  External effects are
made explicit parameters:

* the sqlite store / pandas `read_sql_query` outcome is a `QueryOutcome`
  (either a materialized data frame or the message of the raised exception);
* the OpenAI completion service is an `Except String String`
  (`.ok text` = `response.choices[0].text`, `.error e` = raised exception);
* `datetime.now().isoformat()` is an explicit `now : String` argument.

Scalar values coming back from sqlite through pandas are modelled as
integers, strings and nulls (`Value`); a pandas data frame is a column
list plus a cell matrix, and `DataFrame.toRecords` mirrors
`df.to_dict('records')`.

Connection lifecycle in `execute_query` is tracked by a `ConnLog`
(how many `sqlite3.connect` and `conn.close()` calls happened on the
taken path), and service-call counts are returned alongside results so
that "does not call the service" claims are statable.

NOTE on string literals: the Python source writes `"\\n"` (a two-character
backslash-n sequence, not a newline) throughout `_format_schema_for_prompt`,
`_summarize_data` and the `stop` parameter; the Lean literals below
reproduce those two characters exactly.
-/

/-- A scalar cell value as produced by sqlite via pandas:
integer, text, or NULL/NaN. -/
inductive Value where
  | int (i : Int)
  | str (s : String)
  | null
deriving DecidableEq, Repr

/-- One record of `df.to_dict('records')`: an ordered association of
column name to value (Python dict with insertion order). -/
abbrev Row : Type := List (String × Value)

/-- Key list of a record, in order (`list(d.keys())`). -/
def rowKeys (r : Row) : List String := r.map Prod.fst

/-- Dictionary lookup of a column in a record; a missing key is what
pandas fills with NaN, so it reads as `Value.null`. -/
def lookupVal (r : Row) (c : String) : Value :=
  match r.find? (fun p => p.1 = c) with
  | some p => p.2
  | none => Value.null

/-- Python `str.isspace` characters relevant here (ASCII whitespace). -/
def pyIsSpace (c : Char) : Bool :=
  c = ' ' || c = '\t' || c = '\n' || c = '\r' || c = '\x0b' || c = '\x0c'

/-- Python `str.strip()`: drop leading and trailing whitespace. -/
def pyStrip (s : String) : String :=
  String.mk (((s.data.dropWhile pyIsSpace).reverse.dropWhile pyIsSpace).reverse)

/-- A materialized pandas data frame: ordered column labels and the cell
matrix, one inner list per row. -/
structure DataFrame where
  columns : List String
  cells : List (List Value)
deriving DecidableEq, Repr

/-- `df.to_dict('records')`: each row becomes a dict mapping the column
labels, in order, to that row's cells. -/
def DataFrame.toRecords (df : DataFrame) : List Row :=
  df.cells.map (fun r => df.columns.zip r)

/-- The dict returned by `SQLAgent.execute_query` (keys `success`, `data`,
`columns`, `row_count`, `error`; `error` is present only on failure). -/
structure QueryResult where
  success : Bool
  data : List Row
  columns : List String
  row_count : Nat
  error : Option String
deriving DecidableEq, Repr

/-- Outcome of the store interaction inside `execute_query`:
either `pd.read_sql_query` returns a frame, or some step of the `try`
block raises an exception whose `str(e)` is `msg`. -/
inductive QueryOutcome where
  | ok (df : DataFrame)
  | err (msg : String)
deriving DecidableEq, Repr

/-- Connection-lifecycle log for one `execute_query` call: number of
`sqlite3.connect(...)` calls and number of `conn.close()` calls executed
on the path taken. -/
structure ConnLog where
  opened : Nat
  closed : Nat
deriving DecidableEq, Repr

/-- `SQLAgent.execute_query`.  The `try` block connects, runs
`pd.read_sql_query`, closes the connection and builds the success dict;
the `except` branch builds the failure dict from `str(e)` — it contains
no `conn.close()` call (and there is no `finally`), so on the error path
the log records the connection as opened but not closed. -/
def execute_query (outcome : QueryOutcome) : QueryResult × ConnLog :=
  match outcome with
  | QueryOutcome.ok df =>
      ({ success := true
         data := df.toRecords
         columns := df.columns
         row_count := df.toRecords.length
         error := none },
       { opened := 1, closed := 1 })
  | QueryOutcome.err msg =>
      ({ success := false
         data := []
         columns := []
         row_count := 0
         error := some msg },
       { opened := 1, closed := 0 })

/-- ASCII single-quote character, used by Python `repr` for strings. -/
def squote : String := String.singleton (Char.ofNat 39)

/-- Python `repr` of a scalar as it appears inside `str(tuple)`:
integers in decimal, strings in single quotes, `None` spelled out. -/
def reprVal (v : Value) : String :=
  match v with
  | Value.int i => toString i
  | Value.str s => squote ++ s ++ squote
  | Value.null => "None"

/-- A row fetched by `cursor.fetchall()`: a tuple of scalars. -/
abbrev SampleRow : Type := List Value

/-- Python `str` of a fetched tuple: `(a, b)`, with the one-element
trailing-comma form `(a,)`. -/
def reprSampleRow (t : SampleRow) : String :=
  match t with
  | [v] => "(" ++ reprVal v ++ ",)"
  | _ => "(" ++ String.intercalate ", " (t.map reprVal) ++ ")"

/-- One entry of the `columns` list built by `_analyze_schema`
(`{'name': col[1], 'type': col[2], 'nullable': not col[3]}`). -/
structure ColumnInfo where
  name : String
  type : String
  nullable : Bool
deriving DecidableEq, Repr

/-- The per-table dict of `SQLAgent.schema_info`. -/
structure TableInfo where
  columns : List ColumnInfo
  sample_data : List SampleRow
deriving DecidableEq, Repr

/-- `schema_info` / `SchemaDescription`: insertion-ordered dict from
table name to table info. -/
abbrev SchemaInfo : Type := List (String × TableInfo)

/-- One row of `PRAGMA table_info(table)` as the code reads it:
`col[1]` = name, `col[2]` = declared type, `col[3]` = notnull flag. -/
structure PragmaColumn where
  name : String
  type : String
  notnull : Bool
deriving DecidableEq, Repr

/-- Raw per-table store metadata gathered inside the `try` block of
`_analyze_schema`: the table name from `sqlite_master`, its
`PRAGMA table_info` rows in store-reported order, and the rows fetched
by `SELECT * FROM table LIMIT 5`. -/
structure RawTable where
  name : String
  columns : List PragmaColumn
  sample_data : List SampleRow
deriving DecidableEq, Repr

/-- Outcome of the store interaction inside `_analyze_schema`: either
the full metadata read succeeds, or some step raises (unreachable file,
malformed metadata, a failing PRAGMA or sample query). -/
inductive IntrospectOutcome where
  | ok (tables : List RawTable)
  | err (msg : String)
deriving DecidableEq, Repr

/-- `SQLAgent._analyze_schema`: on success, each discovered table maps to
its column dicts (`nullable = not notnull`) and at most the first 3
sample rows (`sample_data[:3] if sample_data else []`); any exception is
caught, logged, and an empty dict is returned. -/
def _analyze_schema (outcome : IntrospectOutcome) : SchemaInfo :=
  match outcome with
  | IntrospectOutcome.ok tables =>
      tables.map (fun t =>
        (t.name,
         { columns := t.columns.map (fun c =>
             { name := c.name, type := c.type, nullable := !c.notnull })
           sample_data := t.sample_data.take 3 }))
  | IntrospectOutcome.err _ => []

/-- Rendering of one table by `_format_schema_for_prompt`.  The Python
source writes `"\\n"` inside these f-strings, i.e. the literal
two-character sequence backslash-n, not a newline; the Lean literals
below reproduce that. -/
def formatSchemaTable (table : String) (info : TableInfo) : String :=
  "\\nTable: " ++ table ++ "\\n"
    ++ String.join (info.columns.map (fun col =>
         "  - " ++ col.name ++ " (" ++ col.type ++ ")\\n"))
    ++ (match info.sample_data with
        | [] => ""
        | first :: _ => "  Sample data: " ++ reprSampleRow first ++ "\\n")

/-- `SQLAgent._format_schema_for_prompt`: concatenates the rendering of
every table of `schema_info` in dict order. -/
def _format_schema_for_prompt (schema : SchemaInfo) : String :=
  String.join (schema.map (fun p => formatSchemaTable p.1 p.2))

/-- Parameters of one `openai.Completion.create` call. -/
structure CompletionCall where
  engine : String
  prompt : String
  max_tokens : Nat
  temperature : Rat
  stop : List String
deriving DecidableEq, Repr

/-- The `stop` list entry passed by `generate_sql_query`: the Python
literal `"\\n\\n"`, i.e. the four characters backslash, n, backslash, n
(not a double newline). -/
def genStop : String := "\\n\\n"

/-- The query-generation prompt (the f-string of `generate_sql_query`,
with `schema_context` and `question` spliced in). -/
def genPrompt (schema_context : String) (question : String) : String :=
  "
        You are an expert SQL analyst. Given the following database schema and a business question, 
        generate an appropriate SQL query.
        
        Database Schema:
        " ++ schema_context ++ "
        
        Business Question: " ++ question ++ "
        
        Important guidelines:
        1. Handle cases where column names might be unclear or abbreviated
        2. Use appropriate JOINs when data spans multiple tables
        3. Apply proper filtering and aggregation
        4. Consider data quality issues (nulls, duplicates, inconsistent formats)
        5. Return only the SQL query, no explanations
        
        SQL Query:
        "

/-- `SQLAgent.generate_sql_query`: formats the schema, builds the prompt,
and calls the completion service once with the engine "text-davinci-003",
`max_tokens=500`, `temperature=0.1`, `stop=[genStop]`.  On success the
returned text is stripped; on any exception the error is logged and
`None` is returned (no retry, no re-raise).  The call parameters and the
number of service calls made (always exactly one) are returned alongside
for inspection. -/
def generate_sql_query (schema : SchemaInfo) (question : String)
    (svc : Except String String) : Option String × CompletionCall × Nat :=
  let schema_context := _format_schema_for_prompt schema
  let call : CompletionCall :=
    { engine := "text-davinci-003"
      prompt := genPrompt schema_context question
      max_tokens := 500
      temperature := 1 / 10
      stop := [genStop] }
  match svc with
  | Except.ok text => (some (pyStrip text), call, 1)
  | Except.error _ => (none, call, 1)

/-- Values of one data-frame column across all records (a record missing
the key reads as null, as pandas fills NaN). -/
def colValues (data : List Row) (c : String) : List Value :=
  data.map (fun r => lookupVal r c)

/-- The integer entries of a column (pandas skips NaN in min/max/mean). -/
def colInts (data : List Row) (c : String) : List Int :=
  (colValues data c).filterMap (fun v =>
    match v with
    | Value.int i => some i
    | _ => none)

/-- Whether a column has any null entry (then its pandas dtype is float64
and numpy renders its min/max with a trailing `.0`). -/
def colHasNull (data : List Row) (c : String) : Bool :=
  (colValues data c).any (fun v => v = Value.null)

/-- pandas dtype inference restricted to our value universe: a column is
numeric (`select_dtypes(include=['number'])`) iff every entry is an
integer or null and at least one is an integer (all-null or any-string
columns get dtype object). -/
def isNumericCol (data : List Row) (c : String) : Bool :=
  (colValues data c).all (fun v =>
      match v with
      | Value.int _ => true
      | Value.null => true
      | Value.str _ => false)
    && (colValues data c).any (fun v =>
      match v with
      | Value.int _ => true
      | _ => false)

/-- `pd.DataFrame(data).columns`: keys in order of first appearance. -/
def dfColumns (data : List Row) : List String :=
  data.foldl (fun acc r =>
    (rowKeys r).foldl (fun a k => if a.contains k then a else a ++ [k]) acc) []

/-- `df.select_dtypes(include=['number']).columns`: the numeric columns,
in data-frame column order. -/
def numericCols (data : List Row) : List String :=
  (dfColumns data).filter (isNumericCol data)

/-- Minimum of a list of integers (`df[col].min()`; the numeric-column
guard ensures nonemptiness, 0 is a dummy for the empty case). -/
def listMinI (l : List Int) : Int :=
  match l with
  | [] => 0
  | h :: t => t.foldl min h

/-- Maximum of a list of integers (`df[col].max()`). -/
def listMaxI (l : List Int) : Int :=
  match l with
  | [] => 0
  | h :: t => t.foldl max h

/-- `df[col].mean()`: arithmetic mean of the non-null entries, exact. -/
def colMean (data : List Row) (c : String) : Rat :=
  let l := colInts data c
  (l.sum : Rat) / (l.length : Rat)

/-- Round to the nearest integer, ties to even — the rounding used by
Python float formatting. -/
def roundHalfEven (q : Rat) : Int :=
  let f : Int := Rat.floor q
  let r : Rat := q - (f : Rat)
  if r < 1 / 2 then f
  else if 1 / 2 < r then f + 1
  else if f % 2 = 0 then f else f + 1

/-- Python `format(x, '.2f')` on an exact rational: two decimal places,
half-to-even. -/
def fmt2 (q : Rat) : String :=
  let c : Int := roundHalfEven (q * 100)
  let sgn := if c < 0 then "-" else ""
  let m := c.natAbs
  sgn ++ toString (m / 100) ++ "." ++ (if m % 100 < 10 then "0" else "")
    ++ toString (m % 100)

/-- numpy rendering of `df[col].min()` / `df[col].max()` inside the
f-string: plain decimal for an int64 column, trailing `.0` for a float64
column (one that contained nulls). -/
def fmtStat (hasNull : Bool) (v : Int) : String :=
  toString v ++ (if hasNull then ".0" else "")

/-- One `f"{col}: min=..., max=..., avg=...:.2f"` line of the numeric
summary (terminated, as in the source, by a literal backslash-n). -/
def statLine (data : List Row) (col : String) : String :=
  col ++ ": min=" ++ fmtStat (colHasNull data col) (listMinI (colInts data col))
      ++ ", max=" ++ fmtStat (colHasNull data col) (listMaxI (colInts data col))
      ++ ", avg=" ++ fmt2 (colMean data col) ++ "\\n"

/-- `SQLAgent._summarize_data`: the empty list returns the fixed marker;
otherwise the record count, the first record's key list, and — when any
numeric column exists — min/max/mean lines for the first 3 numeric
columns (`numeric_cols[:3]`). -/
def _summarize_data (data : List Row) : String :=
  if data = [] then "No data returned"
  else
    "Dataset contains " ++ toString data.length ++ " records\\n"
      ++ "Columns: "
      ++ String.intercalate ", " (rowKeys (data.headD []))
      ++ "\\n"
      ++ (if (numericCols data).length > 0 then
            "\\nNumeric summaries:\\n"
              ++ String.join (((numericCols data).take 3).map (statLine data))
          else "")

/-- The fixed apology returned by `generate_insights` on a failed
QueryResult. -/
def apologyMsg : String :=
  "I encountered an error while analyzing the data. Please try rephrasing your question."

/-- The degraded message returned when the insight completion call
raises (`n` = `len(query_results['data'])`). -/
def insightFallback (n : Nat) : String :=
  "Analysis completed, but I couldn" ++ squote
    ++ "t generate detailed insights. Raw results: " ++ toString n
    ++ " records found."

/-- The insight prompt (the f-string of `generate_insights`, with
`question` and `data_summary` spliced in). -/
def insightPrompt (question : String) (data_summary : String) : String :=
  "
        Based on the following business question and data analysis results, provide a comprehensive 
        natural language answer with key insights.
        
        Question: " ++ question ++ "
        
        Data Summary:
        " ++ data_summary ++ "
        
        Provide a clear, business-focused answer that:
        1. Directly answers the question
        2. Highlights key findings and trends
        3. Provides actionable insights
        4. Mentions any data quality concerns if relevant
        
        Answer:
        "

/-- Call counts inside one `generate_insights` invocation. -/
structure InsightTrace where
  llmCalls : Nat
  summarizeCalls : Nat
deriving DecidableEq, Repr

/-- `SQLAgent.generate_insights`: a failed QueryResult short-circuits to
the fixed apology with no summarization and no completion call;
otherwise the data is summarized, the prompt built, and the service
called once (`max_tokens=800`, `temperature=0.3`, no stop) — stripped
text on success, the degraded row-count message on exception.  The
third component exposes the completion call made, `none` when the
service was never invoked. -/
def generate_insights (question : String) (query_results : QueryResult)
    (svc : Except String String) : String × InsightTrace × Option CompletionCall :=
  if !query_results.success then
    (apologyMsg, { llmCalls := 0, summarizeCalls := 0 }, none)
  else
    let data_summary := _summarize_data query_results.data
    let call : CompletionCall :=
      { engine := "text-davinci-003"
        prompt := insightPrompt question data_summary
        max_tokens := 800
        temperature := 3 / 10
        stop := [] }
    match svc with
    | Except.ok text =>
        (pyStrip text, { llmCalls := 1, summarizeCalls := 1 }, some call)
    | Except.error _ =>
        (insightFallback query_results.data.length,
         { llmCalls := 1, summarizeCalls := 1 }, some call)

/-- How many times each pipeline component ran during one `/api/ask`
request: `generate_sql_query`, `execute_query`, `_summarize_data`,
`generate_insights`. -/
structure PipelineTrace where
  genCalls : Nat
  execCalls : Nat
  summarizeCalls : Nat
  insightCalls : Nat
deriving DecidableEq, Repr

/-- The HTTP response of the `/api/ask` handler: the 400 missing-question
error, a 500 error (generation failure), or the 200 answer bundle. -/
inductive AskResponse where
  | badRequest (error : String)
  | serverError (error : String)
  | answer (question : String) (sql_query : String) (results : QueryResult)
      (insights : String) (timestamp : String)
deriving DecidableEq, Repr

/-- The `ask_question` route handler.  `data.get('question', '')` makes a
missing question the empty string; `if not question` rejects it with a
400 before any component runs.  `if not sql_query` catches both `None`
and the empty string from the generator and returns the 500 generation
error before execution.  Otherwise the query is executed, insights are
generated, and the bundle is returned with the current timestamp. -/
def ask_question (schema : SchemaInfo) (question : String)
    (genSvc : Except String String) (execOutcome : QueryOutcome)
    (insightSvc : Except String String) (now : String) :
    AskResponse × PipelineTrace :=
  if question = "" then
    (AskResponse.badRequest "Question is required",
     { genCalls := 0, execCalls := 0, summarizeCalls := 0, insightCalls := 0 })
  else
    match (generate_sql_query schema question genSvc).1 with
    | none =>
        (AskResponse.serverError "Could not generate SQL query",
         { genCalls := 1, execCalls := 0, summarizeCalls := 0, insightCalls := 0 })
    | some sql_query =>
        if sql_query = "" then
          (AskResponse.serverError "Could not generate SQL query",
           { genCalls := 1, execCalls := 0, summarizeCalls := 0, insightCalls := 0 })
        else
          let res := execute_query execOutcome
          let ins := generate_insights question res.1 insightSvc
          (AskResponse.answer question sql_query res.1 ins.1 now,
           { genCalls := 1, execCalls := 1,
             summarizeCalls := ins.2.1.summarizeCalls, insightCalls := 1 })

/-- Well-formedness of a materialized frame: every row has one cell per
column label (pandas guarantees a rectangular frame). -/
def dfWellFormed (df : DataFrame) : Prop :=
  ∀ r ∈ df.cells, r.length = df.columns.length

instance (df : DataFrame) : Decidable (dfWellFormed df) := by
  unfold dfWellFormed; infer_instance

/-- The `question` field of a 200 answer bundle. -/
def answerQuestion : AskResponse → Option String
  | AskResponse.answer q _ _ _ _ => some q
  | _ => none

/-- The `sql_query` field of a 200 answer bundle. -/
def answerSql : AskResponse → Option String
  | AskResponse.answer _ s _ _ _ => some s
  | _ => none

/-- The `results` field of a 200 answer bundle. -/
def answerResults : AskResponse → Option QueryResult
  | AskResponse.answer _ _ r _ _ => some r
  | _ => none

/-- The `insights` field of a 200 answer bundle. -/
def answerInsights : AskResponse → Option String
  | AskResponse.answer _ _ _ i _ => some i
  | _ => none

/-- The `timestamp` field of a 200 answer bundle. -/
def answerTimestamp : AskResponse → Option String
  | AskResponse.answer _ _ _ _ t => some t
  | _ => none

theorem rowKeys_zip (cols : List String) (r : List Value)
    (h : cols.length ≤ r.length) : rowKeys (cols.zip r) = cols :=
  List.map_fst_zip cols r h

theorem pyStrip_of_all_space (s : String) (h : ∀ c ∈ s.data, pyIsSpace c) :
    pyStrip s = "" := by
  unfold pyStrip
  have h1 : s.data.dropWhile pyIsSpace = [] :=
    List.dropWhile_eq_nil_iff.mpr h
  rw [h1]
  rfl

/-- C1 (amended): every result of the Query Executor satisfies the
QueryResult invariant — on failure the rows, columns are empty, the count
is 0 and the error field is set (to the exception message verbatim, which
need not be non-empty); on success the error field is absent, the count
equals the number of records and the columns equal the key list of each
record.  No failure escapes as an exception: the embedded function is
total on all store outcomes. -/
theorem C1_queryResult_invariant (outcome : QueryOutcome)
    (hwf : ∀ df, outcome = QueryOutcome.ok df → dfWellFormed df) :
    ((execute_query outcome).1.success = false →
        (execute_query outcome).1.data = [] ∧
        (execute_query outcome).1.columns = [] ∧
        (execute_query outcome).1.row_count = 0 ∧
        (execute_query outcome).1.error.isSome = true) ∧
    ((execute_query outcome).1.success = true →
        (execute_query outcome).1.error = none ∧
        (execute_query outcome).1.row_count = (execute_query outcome).1.data.length ∧
        ∀ r ∈ (execute_query outcome).1.data,
          rowKeys r = (execute_query outcome).1.columns) := by
  cases outcome with
  | err msg => simp [execute_query]
  | ok df =>
      refine ⟨by simp [execute_query], fun _ => ⟨rfl, ?_, ?_⟩⟩
      · simp [execute_query, DataFrame.toRecords]
      · intro r hr
        simp only [execute_query, DataFrame.toRecords, List.mem_map] at hr
        obtain ⟨row, hrow, rfl⟩ := hr
        exact rowKeys_zip _ _ (le_of_eq (hwf df rfl row hrow).symm)

/-- C1 counterexample: when the caught exception stringifies to the empty
string (e.g. a bare `MemoryError()` raised while materializing the
result), the failure dict carries `error = ""`, so the error field is set
but not a non-empty string as the claim states. -/
theorem C1_empty_error_message :
    (execute_query (QueryOutcome.err "")).1.success = false ∧
    (execute_query (QueryOutcome.err "")).1.error = some "" ∧
    ("" : String).length = 0 :=
  ⟨rfl, rfl, rfl⟩

/-- C1 witness: the amended invariant instantiated on a concrete
one-row, one-column frame. -/
theorem C1_queryResult_invariant_witness :
    (execute_query (QueryOutcome.ok
        { columns := ["x"], cells := [[Value.int 1]] })).1.error = none ∧
    (execute_query (QueryOutcome.ok
        { columns := ["x"], cells := [[Value.int 1]] })).1.row_count
      = (execute_query (QueryOutcome.ok
          { columns := ["x"], cells := [[Value.int 1]] })).1.data.length :=
  ⟨((C1_queryResult_invariant
      (QueryOutcome.ok { columns := ["x"], cells := [[Value.int 1]] })
      (by intro df h; cases h; decide)).2 rfl).1,
   ((C1_queryResult_invariant
      (QueryOutcome.ok { columns := ["x"], cells := [[Value.int 1]] })
      (by intro df h; cases h; decide)).2 rfl).2.1⟩

/-- C2: on the error path of `execute_query` the connection opened by
`sqlite3.connect` is never closed — the `except` branch returns the
failure dict without a `conn.close()` and there is no `finally` — while
the success path does close it.  This refutes release-on-every-exit-path. -/
theorem C2_connection_not_closed_on_error :
    (execute_query (QueryOutcome.err "no such table: ordrs")).2.opened = 1 ∧
    (execute_query (QueryOutcome.err "no such table: ordrs")).2.closed = 0 ∧
    (execute_query (QueryOutcome.ok { columns := [], cells := [] })).2.opened = 1 ∧
    (execute_query (QueryOutcome.ok { columns := [], cells := [] })).2.closed = 1 :=
  ⟨rfl, rfl, rfl, rfl⟩

/-- C3: on a failed QueryResult, `generate_insights` returns the fixed
apology message, performs zero completion-service calls (call count 0,
no call record) and does not even summarize. -/
theorem C3_failed_result_short_circuits (question : String)
    (query_results : QueryResult) (svc : Except String String)
    (hfail : query_results.success = false) :
    generate_insights question query_results svc
      = (apologyMsg, { llmCalls := 0, summarizeCalls := 0 }, none) := by
  simp [generate_insights, hfail]

/-- C3 witness: a concrete failed execution short-circuits even when the
service would have answered. -/
theorem C3_failed_result_short_circuits_witness :
    (execute_query (QueryOutcome.err "boom")).1.success = false ∧
    generate_insights "q" (execute_query (QueryOutcome.err "boom")).1 (Except.ok "text")
      = (apologyMsg, { llmCalls := 0, summarizeCalls := 0 }, none) :=
  ⟨rfl, C3_failed_result_short_circuits "q" _ _ rfl⟩

/-- C4: the Query Generator calls the service exactly once with
`max_tokens = 500`, `temperature = 0.1`, and the stop list `[genStop]`;
on failure it yields `none`, on success the stripped text.  But `genStop`
is the four-character literal backslash-n-backslash-n (the Python source
writes `"\\n\\n"`), not a double newline — the stop condition never
matches an actual blank line, contradicting the claim. -/
theorem C4_generator_call_and_stop_bug (schema : SchemaInfo) (question : String)
    (svc : Except String String) :
    (generate_sql_query schema question svc).2.1.engine = "text-davinci-003" ∧
    (generate_sql_query schema question svc).2.1.max_tokens = 500 ∧
    (generate_sql_query schema question svc).2.1.temperature = 1 / 10 ∧
    (generate_sql_query schema question svc).2.1.stop = [genStop] ∧
    (generate_sql_query schema question svc).2.2 = 1 ∧
    (generate_sql_query schema question svc).1
      = (match svc with
         | Except.ok text => some (pyStrip text)
         | Except.error _ => none) ∧
    genStop = String.mk ['\\', 'n', '\\', 'n'] ∧
    ((genStop == "\n\n") = false) := by
  cases svc <;>
    exact ⟨rfl, rfl, rfl, rfl, rfl, rfl, by decide, by decide⟩

/-- C5: the Result Summarizer returns the fixed no-data marker on an
empty list; on nonempty data it reports the record count, the column
list taken from the first record's keys, and one min/max/avg line per
numeric column for at most the first 3 numeric columns in data-frame
column order (the `take 3` can never produce more, and `numericCols` is
an order-preserving sublist of the column order); each average is
rendered through `fmt2`, the two-decimal rounding. -/
theorem C5_summarizer_shape (r : Row) (rest : List Row) :
    _summarize_data [] = "No data returned" ∧
    ((numericCols (r :: rest)).take 3).length ≤ 3 ∧
    (numericCols (r :: rest)).Sublist (dfColumns (r :: rest)) ∧
    _summarize_data (r :: rest)
      = "Dataset contains " ++ toString (r :: rest).length ++ " records\\n"
        ++ "Columns: " ++ String.intercalate ", " (rowKeys r) ++ "\\n"
        ++ (if (numericCols (r :: rest)).length > 0 then
              "\\nNumeric summaries:\\n"
                ++ String.join (((numericCols (r :: rest)).take 3).map
                     (statLine (r :: rest)))
            else "") ∧
    (∀ col : String, statLine (r :: rest) col
      = col ++ ": min="
          ++ fmtStat (colHasNull (r :: rest) col) (listMinI (colInts (r :: rest) col))
          ++ ", max="
          ++ fmtStat (colHasNull (r :: rest) col) (listMaxI (colInts (r :: rest) col))
          ++ ", avg=" ++ fmt2 (colMean (r :: rest) col) ++ "\\n") := by
  refine ⟨rfl, ?_, List.filter_sublist _, ?_, fun col => rfl⟩
  · calc ((numericCols (r :: rest)).take 3).length
        = min 3 (numericCols (r :: rest)).length := List.length_take 3 _
      _ ≤ 3 := min_le_left _ _
  · simp [_summarize_data]

/-- C6: the Schema Introspector returns the empty mapping on any
introspection failure and never raises (the embedding is total on both
outcomes); on success the table order follows the store catalog, every
table keeps at most 3 sample rows, and the columns are recorded in
store-reported order with the declared type and `nullable = not notnull`. -/
theorem C6_introspector_fail_soft (msg : String) (tables : List RawTable) :
    _analyze_schema (IntrospectOutcome.err msg) = [] ∧
    (_analyze_schema (IntrospectOutcome.ok tables)).map Prod.fst
      = tables.map RawTable.name ∧
    ((_analyze_schema (IntrospectOutcome.ok tables)).all
        (fun p => p.2.sample_data.length ≤ 3)) = true ∧
    (_analyze_schema (IntrospectOutcome.ok tables)).map (fun p => p.2.columns)
      = tables.map (fun t => t.columns.map (fun c =>
          { name := c.name, type := c.type, nullable := !c.notnull })) := by
  refine ⟨rfl, ?_, ?_, ?_⟩
  · simp [_analyze_schema]
  · simp only [_analyze_schema, List.all_eq_true, List.mem_map]
    rintro p ⟨t, _, rfl⟩
    simp only [List.length_take, decide_eq_true_eq]
    exact min_le_left 3 _
  · simp [_analyze_schema]

/-- C7: on a concrete schema the query-side renderer produces a single
physical line — the separators are the literal two-character sequence
backslash-n written as `"\\n"` in the Python f-strings, not newline
characters — so the output is not a header line followed by one line per
column as the claim states. -/
theorem C7_renderer_has_no_newlines :
    _format_schema_for_prompt
        [("users",
          { columns := [{ name := "id", type := "INTEGER", nullable := false }],
            sample_data := [] })]
      = "\\nTable: users\\n  - id (INTEGER)\\n" ∧
    ((_format_schema_for_prompt
        [("users",
          { columns := [{ name := "id", type := "INTEGER", nullable := false }],
            sample_data := [] })]).data.contains '\n') = false ∧
    ("\\n" : String).length = 2 ∧ ("\n" : String).length = 1 := by
  refine ⟨by decide, by decide, by decide, by decide⟩

/-- C8: an empty (or missing, which `data.get('question', '')` turns into
empty) question yields the 400 error with every component call count at
zero; a null GeneratedQuery yields the 500 generation error with no
Executor, Summarizer or Insight calls; and that generation-error
response is distinct from the successful response that carries a failed
QueryResult, which the handler returns when execution fails after a
good generation. -/
theorem C8_handler_short_circuits (schema : SchemaInfo)
    (question e sql emsg : String) (genSvc : Except String String)
    (execOut : QueryOutcome) (insightSvc : Except String String) (now : String)
    (hq : question ≠ "") (hsql : pyStrip sql ≠ "") :
    ask_question schema "" genSvc execOut insightSvc now
      = (AskResponse.badRequest "Question is required",
         { genCalls := 0, execCalls := 0, summarizeCalls := 0, insightCalls := 0 }) ∧
    ask_question schema question (Except.error e) execOut insightSvc now
      = (AskResponse.serverError "Could not generate SQL query",
         { genCalls := 1, execCalls := 0, summarizeCalls := 0, insightCalls := 0 }) ∧
    (ask_question schema question (Except.ok sql) (QueryOutcome.err emsg) insightSvc now).1
      = AskResponse.answer question (pyStrip sql)
          (execute_query (QueryOutcome.err emsg)).1
          (generate_insights question (execute_query (QueryOutcome.err emsg)).1 insightSvc).1
          now ∧
    (execute_query (QueryOutcome.err emsg)).1.success = false ∧
    AskResponse.serverError "Could not generate SQL query"
      ≠ (ask_question schema question (Except.ok sql) (QueryOutcome.err emsg) insightSvc now).1 := by
  have h3 : (ask_question schema question (Except.ok sql)
      (QueryOutcome.err emsg) insightSvc now).1
      = AskResponse.answer question (pyStrip sql)
          (execute_query (QueryOutcome.err emsg)).1
          (generate_insights question (execute_query (QueryOutcome.err emsg)).1 insightSvc).1
          now := by
    simp [ask_question, hq, generate_sql_query, hsql]
  refine ⟨by simp [ask_question], ?_, h3, rfl, ?_⟩
  · simp [ask_question, hq, generate_sql_query]
  · rw [h3]; intro hcontra; exact AskResponse.noConfusion hcontra

/-- C8 witness: the short-circuits at concrete inputs. -/
theorem C8_handler_short_circuits_witness :
    ask_question [] "" (Except.ok "g") (QueryOutcome.err "x") (Except.ok "ins") "T"
      = (AskResponse.badRequest "Question is required",
         { genCalls := 0, execCalls := 0, summarizeCalls := 0, insightCalls := 0 }) ∧
    ask_question [] "How many?" (Except.error "quota") (QueryOutcome.err "x")
        (Except.ok "ins") "T"
      = (AskResponse.serverError "Could not generate SQL query",
         { genCalls := 1, execCalls := 0, summarizeCalls := 0, insightCalls := 0 }) :=
  ⟨(C8_handler_short_circuits [] "How many?" "quota" " SELECT 1 " "no such table: ordrs"
      (Except.ok "g") (QueryOutcome.err "x") (Except.ok "ins") "T"
      (by decide) (by decide)).1,
   (C8_handler_short_circuits [] "How many?" "quota" " SELECT 1 " "no such table: ordrs"
      (Except.ok "g") (QueryOutcome.err "x") (Except.ok "ins") "T"
      (by decide) (by decide)).2.1⟩

/-- C9 counterexample: two runs with the same question and with the
Query Generator and Query Executor outputs held identical, but with the
insight-side completion service answering differently (it is a second,
independent language-model call, made at temperature 0.3), produce
bundles whose question, sql_query and results agree while the insights
fields differ — and they differ even with equal timestamps, so the
as-stated claim (only the timestamp may differ) is false. -/
theorem C9_insights_depend_on_insight_service :
    answerQuestion (ask_question [] "q" (Except.ok "SELECT 1")
        (QueryOutcome.ok { columns := ["n"], cells := [[Value.int 1]] })
        (Except.ok "Insight A") "T").1
      = answerQuestion (ask_question [] "q" (Except.ok "SELECT 1")
        (QueryOutcome.ok { columns := ["n"], cells := [[Value.int 1]] })
        (Except.ok "Insight B") "T").1 ∧
    answerSql (ask_question [] "q" (Except.ok "SELECT 1")
        (QueryOutcome.ok { columns := ["n"], cells := [[Value.int 1]] })
        (Except.ok "Insight A") "T").1
      = answerSql (ask_question [] "q" (Except.ok "SELECT 1")
        (QueryOutcome.ok { columns := ["n"], cells := [[Value.int 1]] })
        (Except.ok "Insight B") "T").1 ∧
    answerResults (ask_question [] "q" (Except.ok "SELECT 1")
        (QueryOutcome.ok { columns := ["n"], cells := [[Value.int 1]] })
        (Except.ok "Insight A") "T").1
      = answerResults (ask_question [] "q" (Except.ok "SELECT 1")
        (QueryOutcome.ok { columns := ["n"], cells := [[Value.int 1]] })
        (Except.ok "Insight B") "T").1 ∧
    answerInsights (ask_question [] "q" (Except.ok "SELECT 1")
        (QueryOutcome.ok { columns := ["n"], cells := [[Value.int 1]] })
        (Except.ok "Insight A") "T").1 = some "Insight A" ∧
    answerInsights (ask_question [] "q" (Except.ok "SELECT 1")
        (QueryOutcome.ok { columns := ["n"], cells := [[Value.int 1]] })
        (Except.ok "Insight B") "T").1 = some "Insight B" := by
  refine ⟨by decide, by decide, by decide, by decide, by decide⟩

/-- C9 (amended): when the Query Generator output, the Query Executor
output and the insight-side completion output are all held identical
between two runs, the question, sql_query, results and insights fields
of the two bundles are identical even across different clock readings —
only the timestamp field depends on the clock; the summarizer and both
prompt renderers are pure functions of these inputs. -/
theorem C9_content_independent_of_clock (schema : SchemaInfo) (question : String)
    (genSvc : Except String String) (execOut : QueryOutcome)
    (insightSvc : Except String String) (now1 now2 : String) :
    answerQuestion (ask_question schema question genSvc execOut insightSvc now1).1
      = answerQuestion (ask_question schema question genSvc execOut insightSvc now2).1 ∧
    answerSql (ask_question schema question genSvc execOut insightSvc now1).1
      = answerSql (ask_question schema question genSvc execOut insightSvc now2).1 ∧
    answerResults (ask_question schema question genSvc execOut insightSvc now1).1
      = answerResults (ask_question schema question genSvc execOut insightSvc now2).1 ∧
    answerInsights (ask_question schema question genSvc execOut insightSvc now1).1
      = answerInsights (ask_question schema question genSvc execOut insightSvc now2).1 := by
  by_cases hq : question = ""
  · simp [ask_question, hq]
  · simp only [ask_question, if_neg hq]
    rcases h : (generate_sql_query schema question genSvc).1 with _ | sql
    · simp
    · by_cases hs : sql = "" <;>
        simp [hs, answerQuestion, answerSql, answerResults, answerInsights]

/-- C10: a whitespace-only completion strips to the empty string, and
the handler's `if not sql_query` treats that exactly like `None`: the
same 500 generation-error response, with the Executor, Summarizer and
Insight Composer never invoked. -/
theorem C10_whitespace_query_never_executed (schema : SchemaInfo)
    (question t : String) (execOut : QueryOutcome)
    (insightSvc : Except String String) (now : String)
    (hq : question ≠ "") (hws : ∀ c ∈ t.data, pyIsSpace c) :
    (generate_sql_query schema question (Except.ok t)).1 = some "" ∧
    ask_question schema question (Except.ok t) execOut insightSvc now
      = (AskResponse.serverError "Could not generate SQL query",
         { genCalls := 1, execCalls := 0, summarizeCalls := 0, insightCalls := 0 }) := by
  have h := pyStrip_of_all_space t hws
  constructor
  · simp [generate_sql_query, h]
  · simp [ask_question, hq, generate_sql_query, h]

/-- C10 witness: a completion of spaces and a newline is rejected before
execution. -/
theorem C10_whitespace_query_never_executed_witness :
    (generate_sql_query [] "q" (Except.ok " \n  ")).1 = some "" ∧
    ask_question [] "q" (Except.ok " \n  ") (QueryOutcome.err "x") (Except.ok "i") "T"
      = (AskResponse.serverError "Could not generate SQL query",
         { genCalls := 1, execCalls := 0, summarizeCalls := 0, insightCalls := 0 }) :=
  C10_whitespace_query_never_executed [] "q" " \n  " (QueryOutcome.err "x")
    (Except.ok "i") "T" (by decide) (by decide)
